import Mathlib

/-!
Verification of the deep-agent streaming chat relay.

Server side is translated from `src/app/api/chat/route.ts` together with the
`modelProvider.ts` module it imports; client side from the `useChat` hook.
Wall-clock fields (`startTime`, `latency`, ISO timestamps in frame payloads)
are omitted: they never influence control flow, and real time has no shallow
embedding.  `Date` timestamps on chat messages are modelled as a `Nat`
supplied by the caller.
-/

namespace DeepAgent

/-! ### Wire protocol -/

/-- The `metadata.data` JSON payload `{requestId, timestamp, model, provider}`
(timestamp omitted, see module comment), as the client re-parses it
(`StreamMetadata` in the hook: `requestId` may be absent). -/
structure StreamMetadata where
  requestId : Option String
  model : String
  provider : String
deriving DecidableEq, Repr

/-- One parsed SSE record `{type, data, id?}`.  The four `SSEEventType` values
become constructors; for `metadata` the `data` string holds the JSON of
`StreamMetadata`, which both endpoints serialize/parse losslessly, so the
frame carries the structured payload directly. -/
inductive SSEMessage where
  | metadata (md : StreamMetadata) (id : Option String)
  | content (data : String) (id : Option String)
  | done (id : Option String)
  | error (data : String) (id : Option String)
deriving DecidableEq, Repr

def SSEMessage.isContent : SSEMessage → Bool
  | .content _ _ => true
  | _ => false

def SSEMessage.isTerminal : SSEMessage → Bool
  | .done _ => true
  | .error _ _ => true
  | _ => false

/-- Projection of a content frame's `data` field. -/
def SSEMessage.contentData : SSEMessage → Option String
  | .content d _ => some d
  | _ => none

/-! ### Provider resolution (`modelProvider.ts`) -/

inductive ProviderName where
  | openai
  | qwen
deriving DecidableEq, Repr

def ProviderName.wireName : ProviderName → String
  | .openai => "openai"
  | .qwen => "qwen"

inductive ProviderResolution where
  | ok (p : ProviderName)
  | failed (msg : String)
deriving DecidableEq, Repr

/-- Modelled from the spec: `normalizeProviderName` lives in
`lib/providers/types.ts`, which is not among the provided sources.  Per the
spec (§4.3 step 4, §6) provider resolution "must fail loudly (not silently
default) if the requested provider is unrecognized" and falls back to a
process-wide default when no selector is given; `defaultProvider` stands for
that key-availability-based default. -/
def normalizeProviderName (input : Option String) (defaultProvider : ProviderName) :
    ProviderResolution :=
  match input with
  | none => .ok defaultProvider
  | some s =>
    if s = "openai" then .ok .openai
    else if s = "qwen" then .ok .qwen
    else .failed ("Unknown provider: " ++ s)

/-- `resolveProvider` from `modelProvider.ts`: a truthy explicit selector is
normalized, otherwise the `PROVIDER` environment value is. -/
def resolveProvider (explicit : Option String) (envProvider : Option String)
    (defaultProvider : ProviderName) : ProviderResolution :=
  match explicit with
  | some s =>
    if s = "" then normalizeProviderName envProvider defaultProvider
    else normalizeProviderName (some s) defaultProvider
  | none => normalizeProviderName envProvider defaultProvider

/-! ### Upstream chunks and the relay loop (`route.ts`) -/

/-- The value found at `chunk.choices[0].delta.content`, as discriminated by
the `typeof token !== 'string'` test: only the string case is relayed. -/
inductive DeltaContent where
  | str (s : String)
  | nullValue
  | absent
deriving DecidableEq, Repr

structure Delta where
  content : DeltaContent
deriving DecidableEq, Repr

structure Choice where
  delta : Delta
deriving DecidableEq, Repr

structure ChatCompletionChunk where
  choices : List Choice
deriving DecidableEq, Repr

/-- `chunk?.choices?.[0]?.delta?.content` followed by the typeof-string
check in the relay loop. -/
def deltaToken (chunk : ChatCompletionChunk) : Option String :=
  match chunk.choices with
  | [] => none
  | c :: _ =>
    match c.delta.content with
    | .str s => some s
    | _ => none

/-- Whether the upstream async iterator ends normally or throws after its
yielded chunks. -/
inductive StreamEnd where
  | ok
  | fail (msg : String)
deriving DecidableEq, Repr

/-- The `for await` relay loop of `route.ts`: `c` is the running
`metrics.messageCount`; chunks without a string token are skipped (`continue`)
and do not advance the counter; an emitted fragment gets id
`{requestId}-{messageCount}`.  Returns the emitted frames and the final
counter. -/
def relayContentFrames (requestId : String) : Nat → List ChatCompletionChunk →
    List SSEMessage × Nat
  | c, [] => ([], c)
  | c, ch :: rest =>
    match deltaToken ch with
    | none => relayContentFrames requestId c rest
    | some tok =>
      let rec' := relayContentFrames requestId (c + 1) rest
      (SSEMessage.content tok (some (requestId ++ "-" ++ toString (c + 1))) :: rec'.1, rec'.2)

/-- Frames enqueued by the `ReadableStream` `start` callback once the upstream
stream was successfully opened: one `metadata` frame, the relayed content
frames, then `done` on normal end of the upstream iterator or one `error`
frame when it throws mid-stream.  Also returns the final telemetry counters
`(messageCount, errorCount)`. -/
def streamResponseFrames (requestId modelName provider : String)
    (chunks : List ChatCompletionChunk) (upstreamEnd : StreamEnd) :
    List SSEMessage × Nat × Nat :=
  let meta := SSEMessage.metadata ⟨some requestId, modelName, provider⟩ (some requestId)
  let relayed := relayContentFrames requestId 0 chunks
  match upstreamEnd with
  | .ok => (meta :: relayed.1 ++ [SSEMessage.done (some (requestId ++ "-done"))], relayed.2, 0)
  | .fail msg =>
    (meta :: relayed.1 ++ [SSEMessage.error msg (some (requestId ++ "-error"))], relayed.2, 1)

/-! ### Admission, validation and the POST handler (`route.ts`) -/

structure VercelChatMessage where
  role : String
  content : String
deriving DecidableEq, Repr

/-- Relevant parts of the parsed request body: `messages` may be absent
(`body.messages ?? []`); `provider` is `some` exactly when `body.provider`
is a string (`typeof body.provider === 'string'`). -/
structure RequestBody where
  messages : Option (List VercelChatMessage)
  provider : Option String
deriving DecidableEq, Repr

/-- Result of `await req.json()`: `parseFailed` models a rejected parse,
which the surrounding `try` turns into the 500 response. -/
inductive BodyResult where
  | parsed (b : RequestBody)
  | parseFailed (msg : String)
deriving DecidableEq, Repr

/-- Process environment as read by the handler. -/
structure ServerEnv where
  allowedOriginsEnv : Option String
  production : Bool
  defaultUserIdEnv : Option String
  defaultTenantIdEnv : Option String
  providerEnv : Option String
  defaultProvider : ProviderName
deriving DecidableEq, Repr

/-- The request surface the handler reads: three headers (absent = `null`)
and the body. -/
structure ServerRequest where
  origin : Option String
  headerUserId : Option String
  headerTenantId : Option String
  body : BodyResult
deriving DecidableEq, Repr

/-- JavaScript `a || b` for an optional string: absent and empty both fall
through to the default. -/
def jsOrDefault (v : Option String) (dflt : String) : String :=
  match v with
  | some s => if s = "" then dflt else s
  | none => dflt

/-- JavaScript `String.prototype.trim()`: strip whitespace from both ends.
(Stated by structural recursion over the character list so that concrete
evaluations reduce inside the kernel.) -/
def jsTrim (s : String) : String :=
  ⟨((s.data.dropWhile Char.isWhitespace).reverse.dropWhile Char.isWhitespace).reverse⟩

/-- JavaScript truthiness of a `string | null` value. -/
def strTruthy : Option String → Bool
  | none => false
  | some s => s ≠ ""

def jsSetDedupGo (seen : List String) : List String → List String
  | [] => []
  | x :: xs => if x ∈ seen then jsSetDedupGo seen xs else x :: jsSetDedupGo (x :: seen) xs

/-- First-occurrence deduplication, as `[...new Set(xs)]`. -/
def jsSetDedup (xs : List String) : List String :=
  jsSetDedupGo [] xs

def baseOrigins : List String := ["https://intranet.bank.local"]

/-- `ALLOWED_ORIGINS` split on commas, trimmed, empty entries dropped; a
falsy (absent or empty) variable contributes nothing. -/
def envOrigins (env : ServerEnv) : List String :=
  match env.allowedOriginsEnv with
  | some raw => ((raw.splitOn ",").map jsTrim).filter (fun s => s ≠ "")
  | none => []

def devOrigins (env : ServerEnv) : List String :=
  if env.production then []
  else ["http://localhost:3000", "http://127.0.0.1:3000",
        "http://localhost:3001", "http://127.0.0.1:3001"]

def allowedOrigins (env : ServerEnv) : List String :=
  jsSetDedup (baseOrigins ++ envOrigins env ++ devOrigins env)

/-- `headerUserId ?? (isProduction ? null : fallbackUserId)`. -/
def resolvedUserId (env : ServerEnv) (req : ServerRequest) : Option String :=
  match req.headerUserId with
  | some h => some h
  | none => if env.production then none else some (jsOrDefault env.defaultUserIdEnv "dev-user")

def resolvedTenantId (env : ServerEnv) (req : ServerRequest) : Option String :=
  match req.headerTenantId with
  | some h => some h
  | none => if env.production then none else some (jsOrDefault env.defaultTenantIdEnv "dev-tenant")

/-- Outcome of `chatCompletionStream`: the promise may reject (missing API
key, network failure while opening), or resolve with the model name and the
upstream chunk sequence. -/
inductive UpstreamBehavior where
  | openFail (msg : String)
  | opened (modelName : String) (chunks : List ChatCompletionChunk) (upstreamEnd : StreamEnd)
deriving DecidableEq, Repr

/-- HTTP-level outcome of the handler: a JSON error response with a status,
or the SSE stream (response headers are not modelled). -/
inductive PostResult where
  | json (status : Nat) (errorMsg : String)
  | stream (frames : List SSEMessage)
deriving DecidableEq, Repr

/-- The `POST` handler of `route.ts`.  `requestId` stands for the
`crypto.randomUUID()` drawn into the per-request metrics.  The boolean
records whether `chatCompletionStream` — the upstream provider call — was
invoked. -/
def POST (env : ServerEnv) (req : ServerRequest) (requestId : String)
    (up : UpstreamBehavior) : PostResult × Bool :=
  if strTruthy req.origin ∧ req.origin.getD "" ∉ allowedOrigins env then
    (.json 403 "Origin not allowed.", false)
  else if ¬ strTruthy (resolvedUserId env req) ∨ ¬ strTruthy (resolvedTenantId env req) then
    (.json 401 "Missing authentication context.", false)
  else
    match req.body with
    | .parseFailed msg => (.json 500 msg, false)
    | .parsed body =>
      match resolveProvider body.provider env.providerEnv env.defaultProvider with
      | .failed msg => (.json 500 msg, false)
      | .ok provider =>
        if body.messages.getD [] = [] ∨
            (((body.messages.getD []).getLast?).map VercelChatMessage.content).getD "" = "" then
          (.json 400 "Invalid request: missing messages or content", false)
        else
          match up with
          | .openFail msg => (.json 500 msg, true)
          | .opened modelName chunks upstreamEnd =>
            (.stream (streamResponseFrames requestId modelName provider.wireName
                chunks upstreamEnd).1, true)

/-! ### Client session state (`useChat` hook) -/

inductive Role where
  | user
  | assistant
  | system
deriving DecidableEq, Repr

/-- `ChatMessage.metadata` is an opaque record; the only key this code ever
writes is `error: true`, so the record is modelled by that single flag. -/
structure MessageMetadata where
  error : Bool
deriving DecidableEq, Repr

structure ChatMessage where
  role : Role
  content : String
  timestamp : Nat
  metadata : Option MessageMetadata
deriving DecidableEq, Repr

inductive ConnectionStatus where
  | disconnected
  | connecting
  | connected
  | error
deriving DecidableEq, Repr

/-- Client performance metrics (`startTime` and `latency` omitted, see module
comment). -/
structure ClientMetrics where
  requestId : Option String
  messageCount : Nat
  errorCount : Nat
deriving DecidableEq, Repr

/-- Side-channel payload (`Record<string, unknown>`): the hook only stores and
forwards it, never inspects it, so string key/value pairs suffice. -/
abbrev Payload := List (String × String)

/-- The hook's state: React `useState` values plus the two refs.
`statusTrace` records every `updateConnectionStatus` call, i.e. the
`onConnectionChange` callback history. -/
structure ClientState where
  messages : List ChatMessage
  isLoading : Bool
  error : Option String
  retryCount : Nat
  connectionStatus : ConnectionStatus
  metrics : ClientMetrics
  streamingMessage : Option (Nat × String)
  lastPayload : Option Payload
  statusTrace : List ConnectionStatus
deriving DecidableEq, Repr

def initialClientState : ClientState :=
  { messages := []
    isLoading := false
    error := none
    retryCount := 0
    connectionStatus := .disconnected
    metrics := ⟨none, 0, 0⟩
    streamingMessage := none
    lastPayload := none
    statusTrace := [] }

def updateConnectionStatus (s : ClientState) (st : ConnectionStatus) : ClientState :=
  { s with connectionStatus := st, statusTrace := s.statusTrace ++ [st] }

/-- The `content` record case's `setMessages` updater: append the fragment to
the streaming target, provided the recorded stream context matches the
handler's request id and the recorded index is in range; otherwise the
fragment is discarded. -/
def applyContentFrame (requestId : String) (s : ClientState) (data : String) : ClientState :=
  match s.streamingMessage with
  | none => s
  | some ctx =>
    if ctx.2 ≠ requestId then s
    else
      match s.messages[ctx.1]? with
      | none => s
      | some target =>
        { s with messages :=
            s.messages.set ctx.1 { target with content := target.content ++ data } }

/-- Full effect of one `content` record: the conditional message mutation,
plus the unconditional `messageCount` increment. -/
def contentStep (requestId : String) (s : ClientState) (data : String) : ClientState :=
  let s1 := applyContentFrame requestId s data
  { s1 with metrics := { s1.metrics with messageCount := s1.metrics.messageCount + 1 } }

/-- The metadata record's effect: `metrics.requestId` is replaced when the
payload carries one. -/
def metadataStep (s : ClientState) (md : StreamMetadata) : ClientState :=
  { s with metrics :=
      { s.metrics with requestId := md.requestId.orElse (fun _ => s.metrics.requestId) } }

/-- The switch over one parsed SSE record inside `handleStreamingResponse`'s
read loop.  `done` and `error` `return` from the handler, so no later record
is processed (the enclosing `finally` still runs, see
`handleStreamingResponse`). -/
def processFrames (requestId : String) : ClientState → List SSEMessage → ClientState
  | s, [] => s
  | s, SSEMessage.metadata md _ :: rest =>
    processFrames requestId (metadataStep s md) rest
  | s, SSEMessage.content data _ :: rest =>
    processFrames requestId (contentStep requestId s data) rest
  | s, SSEMessage.done _ :: _ =>
    updateConnectionStatus { s with streamingMessage := none } .disconnected
  | s, SSEMessage.error msg _ :: _ =>
    updateConnectionStatus
      { s with streamingMessage := none, error := some msg,
               metrics := { s.metrics with errorCount := s.metrics.errorCount + 1 } }
      .error

/-- `handleStreamingResponse`: append the empty assistant message, record it
as the streaming target for `requestId`, report `connected`, process the
arriving records, and then run the `finally` block — which clears the target
and reports `disconnected` even when the `error` record case had just set the
status to `error`. -/
def handleStreamingResponse (s : ClientState) (requestId : String) (now : Nat)
    (frames : List SSEMessage) : ClientState :=
  let withAssistant :=
    { s with messages := s.messages ++ [⟨.assistant, "", now, none⟩],
             streamingMessage := some (s.messages.length, requestId) }
  let s1 := updateConnectionStatus withAssistant .connected
  let s2 := processFrames requestId s1 frames
  updateConnectionStatus { s2 with streamingMessage := none } .disconnected

/-- Body of a non-2xx relay response, as consumed by the error-message
recovery chain (`response.json()` with an `error` field, else the default
status text, else `response.text()`). -/
inductive ErrorBody where
  | jsonWithError (msg : String)
  | jsonOther
  | textBody (t : String)
  | unreadable
deriving DecidableEq, Repr

def httpErrorMessage (status : Nat) (body : ErrorBody) : String :=
  match body with
  | .jsonWithError m => m
  | .jsonOther => "Request failed with status " ++ toString status
  | .textBody t => t
  | .unreadable => "Request failed with status " ++ toString status

/-- How one `fetch` of the relay turns out, from the hook's point of view:
a non-2xx response, an OK response whose body yields the given records, or a
thrown error (network failure, or a response without a body). -/
inductive FetchOutcome where
  | httpError (status : Nat) (body : ErrorBody)
  | stream (frames : List SSEMessage)
  | thrown (msg : String)
deriving DecidableEq, Repr

/-- A dispatched relay request: the fetch body is
`{messages: newMessages, ...payload}`. -/
structure DispatchedRequest where
  messages : List ChatMessage
  payload : Option Payload
deriving DecidableEq, Repr

/-- The non-2xx branch's `setMessages` updater: overwrite a trailing assistant
message with the error text and an `error: true` flag, otherwise append a
fresh flagged assistant message. -/
def applyHttpErrorToMessages (prev : List ChatMessage) (errMsg : String) (now : Nat) :
    List ChatMessage :=
  if prev = [] then prev
  else
    match prev.getLast? with
    | some last =>
      if last.role = .assistant then
        prev.dropLast ++ [{ last with content := errMsg, metadata := some ⟨true⟩ }]
      else prev ++ [⟨.assistant, errMsg, now, some ⟨true⟩⟩]
    | none => prev

/-- `sendMessageCore`: rejected (no state change, nothing dispatched) when the
trimmed text is empty or a request is in flight; otherwise caches the
payload, clears the error, reports `connecting`, resets the metrics, appends
the trimmed user message to the `currentMessages` snapshot it was given, and
dispatches.  `requestId` stands for the client-generated stream id, `now` for
`new Date()`.  Returns the new state and the dispatched request, if any. -/
def sendMessageCore (s : ClientState) (content : String) (currentMessages : List ChatMessage)
    (payload : Option Payload) (outcome : FetchOutcome) (requestId : String) (now : Nat) :
    ClientState × Option DispatchedRequest :=
  if jsTrim content = "" ∨ s.isLoading then (s, none)
  else
    let s0 := { s with lastPayload := payload, error := none }
    let s1 := updateConnectionStatus s0 .connecting
    let s2 := { s1 with metrics := ⟨none, 0, 0⟩ }
    let userMessage : ChatMessage := ⟨.user, jsTrim content, now, none⟩
    let newMessages := currentMessages ++ [userMessage]
    let s3 := { s2 with messages := newMessages, isLoading := true }
    let req : DispatchedRequest := ⟨newMessages, payload⟩
    match outcome with
    | .httpError status body =>
      let errMsg := httpErrorMessage status body
      let s4 := updateConnectionStatus { s3 with streamingMessage := none } .error
      let s5 := { s4 with error := some errMsg }
      let s6 := { s5 with messages := applyHttpErrorToMessages s5.messages errMsg now }
      ({ s6 with isLoading := false }, some req)
    | .stream frames =>
      let s4 := handleStreamingResponse s3 requestId now frames
      ({ s4 with isLoading := false }, some req)
    | .thrown msg =>
      let s4 := { s3 with error := some msg }
      let s5 := updateConnectionStatus s4 .error
      let fallbackAssistantMsg : ChatMessage :=
        ⟨.assistant, "Sorry, there was an error processing your request.", now, none⟩
      let s6 := { s5 with messages := s5.messages ++ [fallbackAssistantMsg] }
      ({ s6 with isLoading := false }, some req)

/-- `sendMessage`: overwrites `lastPayloadRef` before delegating to the core
— also on calls the core then rejects. -/
def sendMessage (s : ClientState) (content : String) (payload : Option Payload)
    (outcome : FetchOutcome) (requestId : String) (now : Nat) :
    ClientState × Option DispatchedRequest :=
  sendMessageCore { s with lastPayload := payload } content s.messages payload outcome
    requestId now

/-- JavaScript `maxRetries || 3`: absent and `0` both fall back to `3`. -/
def jsMaxRetries : Option Nat → Nat
  | none => 3
  | some 0 => 3
  | some n => n

/-- `retry`: reject with the exhaustion error at the effective maximum;
otherwise bump the counter, clear the error, and — only when the last stored
message is a user message — resubmit its content over the history without
that last message, with the cached payload. -/
def retry (s : ClientState) (maxRetries : Option Nat) (outcome : FetchOutcome)
    (requestId : String) (now : Nat) : ClientState × Option DispatchedRequest :=
  if s.retryCount ≥ jsMaxRetries maxRetries then
    ({ s with error := some "Maximum retry attempts reached" }, none)
  else
    let s1 := { s with retryCount := s.retryCount + 1, error := none }
    match s1.messages.getLast? with
    | some lastMsg =>
      if lastMsg.role = .user then
        sendMessageCore s1 lastMsg.content s1.messages.dropLast s1.lastPayload outcome
          requestId now
      else (s1, none)
    | none => (s1, none)

/-! ### Declarative helpers used to state the properties -/

/-- Exact concatenation of a list of fragments, in order. -/
def concatAll : List String → String
  | [] => ""
  | s :: rest => s ++ concatAll rest

/-- The `data` fields of the content frames a decoder run consumes: frames in
order, stopping at the first terminal frame. -/
def contentsUntilTerminal : List SSEMessage → List String
  | [] => []
  | SSEMessage.metadata _ _ :: rest => contentsUntilTerminal rest
  | SSEMessage.content d _ :: rest => d :: contentsUntilTerminal rest
  | SSEMessage.done _ :: _ => []
  | SSEMessage.error _ _ :: _ => []

/-- Content frames for the given fragments with consecutive sequence ids
starting after `c` — the declarative shape of the relay loop's output. -/
def numberFrom (requestId : String) : Nat → List String → List SSEMessage
  | _, [] => []
  | c, t :: ts =>
    SSEMessage.content t (some (requestId ++ "-" ++ toString (c + 1))) ::
      numberFrom requestId (c + 1) ts

/-! ### Concrete fixtures for witnesses and counterexamples -/

def mkChunk (s : String) : ChatCompletionChunk := ⟨[⟨⟨.str s⟩⟩]⟩

def envDev : ServerEnv := ⟨none, false, none, none, none, .openai⟩

def reqHello : ServerRequest := ⟨none, none, none, .parsed ⟨some [⟨"user", "Hello!"⟩], none⟩⟩

def reqEmptyBogusProvider : ServerRequest :=
  ⟨none, none, none, .parsed ⟨some [], some "bogus"⟩⟩

def reqBadOrigin : ServerRequest :=
  ⟨some "https://evil.example", some "u", some "t", .parsed ⟨some [], none⟩⟩

/-- Frames of a stream whose upstream threw after yielding fragments
`"A"` and `"B"`. -/
def abortFrames : List SSEMessage :=
  (streamResponseFrames "r1" "gpt-4o-mini" "openai" [mkChunk "A", mkChunk "B"] (.fail "boom")).1

/-- Session right after an attempt that failed with a non-2xx response: the
stand-in assistant error message is the last message. -/
def failedOnceState : ClientState :=
  (sendMessage initialClientState "hi" none (.httpError 500 (.jsonWithError "server down"))
    "r1" 0).1

def userOnlyState : ClientState :=
  { initialClientState with messages := [⟨.user, "hi", 0, none⟩] }

def exhaustedState : ClientState := { userOnlyState with retryCount := 3 }

/-! ### General list helpers -/

theorem set_of_getElem? {α : Type} (l : List α) (i : Nat) (x : α) (h : l[i]? = some x) :
    l.set i x = l := by
  induction l generalizing i with
  | nil => simp at h
  | cons y ys ih =>
    cases i with
    | zero => simp_all
    | succ n =>
      simp only [List.getElem?_cons_succ] at h
      simp [ih n h]

theorem getElem?_of_lt_length {α : Type} {l : List α} {i : Nat} {x : α}
    (h : l[i]? = some x) : i < l.length := by
  by_contra hge
  rw [List.getElem?_eq_none (by omega)] at h
  exact Option.noConfusion h

/-! ### The relay loop produces exactly the string-token fragments -/

theorem relayContentFrames_eq (requestId : String) (chunks : List ChatCompletionChunk) :
    ∀ c : Nat,
      relayContentFrames requestId c chunks =
        (numberFrom requestId c (chunks.filterMap deltaToken),
         c + (chunks.filterMap deltaToken).length) := by
  induction chunks with
  | nil => intro c; simp [relayContentFrames, numberFrom]
  | cons ch rest ih =>
    intro c
    cases h : deltaToken ch with
    | none =>
      simp only [relayContentFrames, h, List.filterMap_cons, ih c]
    | some tok =>
      simp only [relayContentFrames, h, List.filterMap_cons, ih (c + 1), numberFrom,
        List.length_cons]
      exact Prod.ext rfl (by omega)

theorem numberFrom_not_terminal (requestId : String) :
    ∀ (ts : List String) (c : Nat) (f : SSEMessage),
      f ∈ numberFrom requestId c ts → f.isTerminal = false ∧ f.isContent = true := by
  intro ts
  induction ts with
  | nil => intro c f hf; simp [numberFrom] at hf
  | cons t rest ih =>
    intro c f hf
    simp only [numberFrom, List.mem_cons] at hf
    rcases hf with hf | hf
    · subst hf; exact ⟨rfl, rfl⟩
    · exact ih (c + 1) f hf

theorem contentsUntilTerminal_numberFrom_append (requestId : String) :
    ∀ (ts : List String) (c : Nat) (tail : List SSEMessage),
      contentsUntilTerminal (numberFrom requestId c ts ++ tail) =
        ts ++ contentsUntilTerminal tail := by
  intro ts
  induction ts with
  | nil => intro c tail; simp [numberFrom]
  | cons t rest ih =>
    intro c tail
    simp [numberFrom, contentsUntilTerminal, ih (c + 1) tail]

theorem numberFrom_contentData (requestId : String) :
    ∀ (ts : List String) (c : Nat),
      (numberFrom requestId c ts).filterMap SSEMessage.contentData = ts := by
  intro ts
  induction ts with
  | nil => intro c; simp [numberFrom]
  | cons t rest ih =>
    intro c
    simp [numberFrom, List.filterMap_cons, SSEMessage.contentData, ih (c + 1)]

/-- The content fragments a stream carries, up to the terminal frame, are
exactly the upstream chunks' string tokens, in order. -/
theorem contentsUntilTerminal_streamResponseFrames (requestId modelName provider : String)
    (chunks : List ChatCompletionChunk) (upstreamEnd : StreamEnd) :
    contentsUntilTerminal (streamResponseFrames requestId modelName provider
        chunks upstreamEnd).1 =
      chunks.filterMap deltaToken := by
  cases upstreamEnd with
  | ok =>
    simp [streamResponseFrames, relayContentFrames_eq, contentsUntilTerminal,
      contentsUntilTerminal_numberFrom_append]
  | fail msg =>
    simp [streamResponseFrames, relayContentFrames_eq, contentsUntilTerminal,
      contentsUntilTerminal_numberFrom_append]

/-! ### Decoder lemmas -/

theorem applyContentFrame_shape (requestId : String) (s : ClientState) (data : String) :
    ∃ msgs, applyContentFrame requestId s data = { s with messages := msgs } := by
  unfold applyContentFrame
  split
  · exact ⟨s.messages, rfl⟩
  · split
    · exact ⟨s.messages, rfl⟩
    · split
      · exact ⟨s.messages, rfl⟩
      · exact ⟨_, rfl⟩

theorem contentStep_shape (requestId : String) (s : ClientState) (data : String) :
    ∃ msgs, contentStep requestId s data =
      { s with messages := msgs,
               metrics := { s.metrics with messageCount := s.metrics.messageCount + 1 } } := by
  obtain ⟨msgs, hm⟩ := applyContentFrame_shape requestId s data
  exact ⟨msgs, by simp [contentStep, hm]⟩

theorem contentStep_matching (requestId : String) (s : ClientState) (data : String)
    (idx : Nat) (target : ChatMessage)
    (href : s.streamingMessage = some (idx, requestId))
    (hget : s.messages[idx]? = some target) :
    contentStep requestId s data =
      { s with messages :=
          s.messages.set idx { target with content := target.content ++ data },
               metrics := { s.metrics with messageCount := s.metrics.messageCount + 1 } } := by
  have hacf : applyContentFrame requestId s data =
      { s with messages :=
          s.messages.set idx { target with content := target.content ++ data } } := by
    unfold applyContentFrame
    rw [href]
    simp only [ne_eq, not_true_eq_false, if_false, hget]
  simp [contentStep, hacf]

/-- Fields other than `messages` and `metrics` are untouched by a run of the
decoder over terminal-free records. -/
theorem processFrames_preserved (requestId : String) :
    ∀ (frames : List SSEMessage), (∀ f ∈ frames, f.isTerminal = false) →
      ∀ s : ClientState,
        (processFrames requestId s frames).error = s.error ∧
        (processFrames requestId s frames).connectionStatus = s.connectionStatus ∧
        (processFrames requestId s frames).statusTrace = s.statusTrace ∧
        (processFrames requestId s frames).streamingMessage = s.streamingMessage ∧
        (processFrames requestId s frames).isLoading = s.isLoading ∧
        (processFrames requestId s frames).lastPayload = s.lastPayload ∧
        (processFrames requestId s frames).retryCount = s.retryCount := by
  intro frames
  induction frames with
  | nil => exact fun _ s => ⟨rfl, rfl, rfl, rfl, rfl, rfl, rfl⟩
  | cons f rest ih =>
    intro hnt s
    have hrest : ∀ g ∈ rest, g.isTerminal = false :=
      fun g hg => hnt g (List.mem_cons_of_mem _ hg)
    cases f with
    | metadata md id? => simpa [processFrames, metadataStep] using ih hrest _
    | content data id? =>
      obtain ⟨msgs, hm⟩ := contentStep_shape requestId s data
      simpa [processFrames, hm] using ih hrest _
    | done id? => exact absurd (hnt _ (List.mem_cons_self _ _)) (by simp [SSEMessage.isTerminal])
    | error msg id? =>
      exact absurd (hnt _ (List.mem_cons_self _ _)) (by simp [SSEMessage.isTerminal])

/-- Running the decoder appends, to the streaming target's content, exactly
the content fragments that arrive before the first terminal record, in
order. -/
theorem processFrames_messages (requestId : String) :
    ∀ (frames : List SSEMessage) (s : ClientState) (idx : Nat) (target : ChatMessage),
      s.streamingMessage = some (idx, requestId) →
      s.messages[idx]? = some target →
      (processFrames requestId s frames).messages =
        s.messages.set idx
          { target with content :=
              target.content ++ concatAll (contentsUntilTerminal frames) } := by
  intro frames
  induction frames with
  | nil =>
    intro s idx target _ hget
    simp only [processFrames, contentsUntilTerminal, concatAll, String.append_empty]
    exact (set_of_getElem? _ _ _ hget).symm
  | cons f rest ih =>
    intro s idx target href hget
    cases f with
    | metadata md id? =>
      have h := ih (metadataStep s md) idx target href hget
      simpa [processFrames, contentsUntilTerminal] using h
    | content data id? =>
      have hstep := contentStep_matching requestId s data idx target href hget
      have hlt : idx < s.messages.length := getElem?_of_lt_length hget
      have hget2 :
          (s.messages.set idx { target with content := target.content ++ data })[idx]? =
            some { target with content := target.content ++ data } := by
        rw [List.getElem?_set_self']
        simp [hlt]
      have h := ih (contentStep requestId s data) idx
        { target with content := target.content ++ data }
        (by rw [hstep]; exact href) (by rw [hstep]; exact hget2)
      simp only [processFrames] at h ⊢
      rw [h, hstep]
      simp only [List.set_set, contentsUntilTerminal, concatAll, String.append_assoc]
    | done id? =>
      simp only [processFrames, contentsUntilTerminal, concatAll, String.append_empty,
        updateConnectionStatus]
      exact (set_of_getElem? _ _ _ hget).symm
    | error msg id? =>
      simp only [processFrames, contentsUntilTerminal, concatAll, String.append_empty,
        updateConnectionStatus]
      exact (set_of_getElem? _ _ _ hget).symm

theorem contentsUntilTerminal_append_of_no_terminal :
    ∀ (frames : List SSEMessage), (∀ f ∈ frames, f.isTerminal = false) →
      ∀ tail : List SSEMessage,
        contentsUntilTerminal (frames ++ tail) =
          contentsUntilTerminal frames ++ contentsUntilTerminal tail := by
  intro frames
  induction frames with
  | nil => intro _ tail; simp [contentsUntilTerminal]
  | cons f rest ih =>
    intro hnt tail
    have hrest : ∀ g ∈ rest, g.isTerminal = false :=
      fun g hg => hnt g (List.mem_cons_of_mem _ hg)
    cases f with
    | metadata md id? => simp [contentsUntilTerminal, ih hrest tail]
    | content data id? => simp [contentsUntilTerminal, ih hrest tail]
    | done id? => exact absurd (hnt _ (List.mem_cons_self _ _)) (by simp [SSEMessage.isTerminal])
    | error m id? =>
      exact absurd (hnt _ (List.mem_cons_self _ _)) (by simp [SSEMessage.isTerminal])

/-- Processing a terminal-free prefix followed by an `error` record: the error
case of the switch runs on the state left by the prefix. -/
theorem processFrames_concat_error (requestId msg : String) (id? : Option String) :
    ∀ (frames : List SSEMessage), (∀ f ∈ frames, f.isTerminal = false) →
      ∀ s : ClientState,
        processFrames requestId s (frames ++ [SSEMessage.error msg id?]) =
          updateConnectionStatus
            { processFrames requestId s frames with
                streamingMessage := none, error := some msg,
                metrics := { (processFrames requestId s frames).metrics with
                    errorCount := (processFrames requestId s frames).metrics.errorCount + 1 } }
            .error := by
  intro frames
  induction frames with
  | nil => intro _ s; simp [processFrames]
  | cons f rest ih =>
    intro hnt s
    have hrest : ∀ g ∈ rest, g.isTerminal = false :=
      fun g hg => hnt g (List.mem_cons_of_mem _ hg)
    cases f with
    | metadata md id2 => simpa [processFrames] using ih hrest (metadataStep s md)
    | content data id2 => simpa [processFrames] using ih hrest (contentStep requestId s data)
    | done id2 => exact absurd (hnt _ (List.mem_cons_self _ _)) (by simp [SSEMessage.isTerminal])
    | error m id2 =>
      exact absurd (hnt _ (List.mem_cons_self _ _)) (by simp [SSEMessage.isTerminal])

/-- All observable effects of a streaming-response handler run whose record
sequence is a terminal-free prefix closed by an `error` record: the fragment
text is kept on the (unflagged) assistant message, the error message lands in
the session error, the status passes through `error` but the `finally` leaves
it `disconnected`. -/
theorem handleStreamingResponse_error_run (s : ClientState) (requestId : String) (now : Nat)
    (prefixFrames : List SSEMessage) (hnt : ∀ f ∈ prefixFrames, f.isTerminal = false)
    (msg : String) (id? : Option String) :
    (handleStreamingResponse s requestId now
        (prefixFrames ++ [SSEMessage.error msg id?])).messages =
      (s.messages ++ [(⟨.assistant, "", now, none⟩ : ChatMessage)]).set s.messages.length
        ⟨.assistant, concatAll (contentsUntilTerminal prefixFrames), now, none⟩ ∧
    (handleStreamingResponse s requestId now
        (prefixFrames ++ [SSEMessage.error msg id?])).error = some msg ∧
    (handleStreamingResponse s requestId now
        (prefixFrames ++ [SSEMessage.error msg id?])).connectionStatus = .disconnected ∧
    (handleStreamingResponse s requestId now
        (prefixFrames ++ [SSEMessage.error msg id?])).streamingMessage = none ∧
    (handleStreamingResponse s requestId now
        (prefixFrames ++ [SSEMessage.error msg id?])).statusTrace =
      s.statusTrace ++ [.connected, .error, .disconnected] := by
  have hcut : contentsUntilTerminal (prefixFrames ++ [SSEMessage.error msg id?]) =
      contentsUntilTerminal prefixFrames := by
    rw [contentsUntilTerminal_append_of_no_terminal prefixFrames hnt]
    simp [contentsUntilTerminal]
  have hmsg := processFrames_messages requestId (prefixFrames ++ [SSEMessage.error msg id?])
    (updateConnectionStatus
      { s with messages := s.messages ++ [⟨Role.assistant, "", now, none⟩],
               streamingMessage := some (s.messages.length, requestId) } .connected)
    s.messages.length ⟨Role.assistant, "", now, none⟩
    (by simp [updateConnectionStatus])
    (by simp [updateConnectionStatus])
  have hrun := processFrames_concat_error requestId msg id? prefixFrames hnt
    (updateConnectionStatus
      { s with messages := s.messages ++ [⟨Role.assistant, "", now, none⟩],
               streamingMessage := some (s.messages.length, requestId) } .connected)
  have hpres := processFrames_preserved requestId prefixFrames hnt
    (updateConnectionStatus
      { s with messages := s.messages ++ [⟨Role.assistant, "", now, none⟩],
               streamingMessage := some (s.messages.length, requestId) } .connected)
  refine ⟨?_, ?_, ?_, ?_, ?_⟩
  · show (updateConnectionStatus _ .disconnected).messages = _
    simp only [updateConnectionStatus] at hmsg ⊢
    rw [hmsg, hcut]
    simp [String.empty_append]
  · show (updateConnectionStatus _ .disconnected).error = _
    simp only [updateConnectionStatus] at hrun ⊢
    rw [hrun]
  · rfl
  · rfl
  · show (updateConnectionStatus _ .disconnected).statusTrace = _
    simp only [updateConnectionStatus] at hrun hpres ⊢
    rw [hrun]
    simp [hpres.2.2.1]

/-- Whatever records arrive, the appended assistant message's final content
is exactly the in-order concatenation of the content fragments that arrived
before the first terminal record. -/
theorem handleStreamingResponse_messages (s : ClientState) (requestId : String) (now : Nat)
    (frames : List SSEMessage) :
    (handleStreamingResponse s requestId now frames).messages =
      (s.messages ++ [(⟨.assistant, "", now, none⟩ : ChatMessage)]).set s.messages.length
        ⟨.assistant, concatAll (contentsUntilTerminal frames), now, none⟩ := by
  have hmsg := processFrames_messages requestId frames
    (updateConnectionStatus
      { s with messages := s.messages ++ [⟨Role.assistant, "", now, none⟩],
               streamingMessage := some (s.messages.length, requestId) } .connected)
    s.messages.length ⟨Role.assistant, "", now, none⟩
    (by simp [updateConnectionStatus])
    (by simp [updateConnectionStatus])
  show (updateConnectionStatus _ .disconnected).messages = _
  simp only [updateConnectionStatus] at hmsg ⊢
  rw [hmsg]
  simp [String.empty_append]

theorem streamResponseFrames_fail (requestId modelName provider msg : String)
    (chunks : List ChatCompletionChunk) :
    (streamResponseFrames requestId modelName provider chunks (.fail msg)).1 =
      (SSEMessage.metadata ⟨some requestId, modelName, provider⟩ (some requestId) ::
        numberFrom requestId 0 (chunks.filterMap deltaToken)) ++
      [SSEMessage.error msg (some (requestId ++ "-error"))] := by
  simp [streamResponseFrames, relayContentFrames_eq]

/-- Structural shape of every emitted stream: a `metadata` head, content
frames in the middle, exactly one terminal frame, and that terminal frame is
last. -/
theorem streamResponseFrames_shape (requestId modelName provider : String)
    (chunks : List ChatCompletionChunk) (upstreamEnd : StreamEnd) :
    (∃ md mid, ((streamResponseFrames requestId modelName provider chunks
        upstreamEnd).1).head? = some (SSEMessage.metadata md mid)) ∧
    (∃ t, ((streamResponseFrames requestId modelName provider chunks
        upstreamEnd).1).getLast? = some t ∧ t.isTerminal = true) ∧
    ((streamResponseFrames requestId modelName provider chunks
        upstreamEnd).1).countP SSEMessage.isTerminal = 1 ∧
    (∀ f ∈ (((streamResponseFrames requestId modelName provider chunks
        upstreamEnd).1).drop 1).dropLast, f.isContent = true) := by
  have hcount : (numberFrom requestId 0 (chunks.filterMap deltaToken)).countP
      SSEMessage.isTerminal = 0 := by
    rw [List.countP_eq_zero]
    intro f hf
    simp [(numberFrom_not_terminal requestId _ _ f hf).1]
  cases upstreamEnd with
  | ok =>
    refine ⟨⟨⟨some requestId, modelName, provider⟩, some requestId, ?_⟩,
      ⟨SSEMessage.done (some (requestId ++ "-done")), ?_, rfl⟩, ?_, ?_⟩
    · simp [streamResponseFrames, relayContentFrames_eq]
    · rw [streamResponseFrames]
      simp only [relayContentFrames_eq]
      exact List.getLast?_concat _
    · rw [streamResponseFrames]
      simp only [relayContentFrames_eq]
      simp [List.countP_cons, List.countP_append, hcount, SSEMessage.isTerminal]
    · intro f hf
      rw [streamResponseFrames] at hf
      simp only [relayContentFrames_eq] at hf
      rw [List.drop_one, List.cons_append] at hf
      simp only [List.tail_cons, List.dropLast_concat] at hf
      exact (numberFrom_not_terminal requestId _ _ f hf).2
  | fail msg =>
    refine ⟨⟨⟨some requestId, modelName, provider⟩, some requestId, ?_⟩,
      ⟨SSEMessage.error msg (some (requestId ++ "-error")), ?_, rfl⟩, ?_, ?_⟩
    · simp [streamResponseFrames, relayContentFrames_eq]
    · rw [streamResponseFrames]
      simp only [relayContentFrames_eq]
      exact List.getLast?_concat _
    · rw [streamResponseFrames]
      simp only [relayContentFrames_eq]
      simp [List.countP_cons, List.countP_append, hcount, SSEMessage.isTerminal]
    · intro f hf
      rw [streamResponseFrames] at hf
      simp only [relayContentFrames_eq] at hf
      rw [List.drop_one, List.cons_append] at hf
      simp only [List.tail_cons, List.dropLast_concat] at hf
      exact (numberFrom_not_terminal requestId _ _ f hf).2

/-! ### Retry behavior -/

/-- Below the effective maximum, with a trailing user message of non-blank
content and no request in flight, `retry` dispatches the user message's
content over the history without that message, with the cached payload. -/
theorem retry_resubmits (s : ClientState) (maxRetries : Option Nat) (outcome : FetchOutcome)
    (requestId : String) (now : Nat) (m : ChatMessage)
    (hlt : s.retryCount < jsMaxRetries maxRetries)
    (hlast : s.messages.getLast? = some m) (hrole : m.role = .user)
    (htrim : jsTrim m.content ≠ "") (hload : s.isLoading = false) :
    (retry s maxRetries outcome requestId now).2 =
      some ⟨s.messages.dropLast ++ [⟨.user, jsTrim m.content, now, none⟩], s.lastPayload⟩ := by
  unfold retry
  rw [if_neg (by omega)]
  simp only [hlast]
  rw [if_pos hrole]
  unfold sendMessageCore
  rw [if_neg (by simp [htrim, hload])]
  cases outcome <;> rfl

/-- Below the effective maximum but with a trailing assistant message (the
error stand-in case), `retry` only bumps the counter and clears the error:
nothing is dispatched and the message list is untouched. -/
theorem retry_assistant_noop (s : ClientState) (maxRetries : Option Nat)
    (outcome : FetchOutcome) (requestId : String) (now : Nat) (m : ChatMessage)
    (hlt : s.retryCount < jsMaxRetries maxRetries)
    (hlast : s.messages.getLast? = some m) (hrole : m.role = .assistant) :
    retry s maxRetries outcome requestId now =
      ({ s with retryCount := s.retryCount + 1, error := none }, none) := by
  unfold retry
  rw [if_neg (by omega)]
  simp only [hlast]
  rw [if_neg (by rw [hrole]; exact fun h => Role.noConfusion h)]

/-! ### Claim C1 — upstream abort mid-stream -/

/-- C1 (counterexample): upstream threw after fragments `"A"`, `"B"`.  The
post-state keeps the fragment text, but the assistant message carries no
error metadata and `connectionStatus` is `disconnected`, not `error` —
refuting the claim that the message "is flagged with the error metadata" and
that "the session's connectionStatus equals error". -/
theorem upstream_abort_claim_counterexample :
    (sendMessage initialClientState "Hello!" none (.stream abortFrames) "r1" 0).1.messages[1]? =
      some ⟨.assistant, "AB", 0, none⟩ ∧
    (sendMessage initialClientState "Hello!" none
        (.stream abortFrames) "r1" 0).1.connectionStatus = ConnectionStatus.disconnected ∧
    (sendMessage initialClientState "Hello!" none
        (.stream abortFrames) "r1" 0).1.connectionStatus ≠ ConnectionStatus.error := by
  decide

/-- C1 (amended): when the upstream aborts after emitting fragments, the
client keeps the fragments' text on the assistant message, records the error
message on the session's `error` field, but does not flag the message with
error metadata, and `connectionStatus` passes through `error` only
transiently — the handler's `finally` leaves it `disconnected`. -/
theorem upstream_abort_session_outcome (s : ClientState)
    (requestId modelName provider msg : String) (now : Nat)
    (chunks : List ChatCompletionChunk) :
    (handleStreamingResponse s requestId now
        (streamResponseFrames requestId modelName provider chunks
          (.fail msg)).1).messages[s.messages.length]? =
      some ⟨.assistant, concatAll (chunks.filterMap deltaToken), now, none⟩ ∧
    (handleStreamingResponse s requestId now
        (streamResponseFrames requestId modelName provider chunks
          (.fail msg)).1).error = some msg ∧
    (handleStreamingResponse s requestId now
        (streamResponseFrames requestId modelName provider chunks
          (.fail msg)).1).connectionStatus = .disconnected ∧
    (handleStreamingResponse s requestId now
        (streamResponseFrames requestId modelName provider chunks
          (.fail msg)).1).statusTrace =
      s.statusTrace ++ [.connected, .error, .disconnected] := by
  have hnt : ∀ f ∈ (SSEMessage.metadata
      (⟨some requestId, modelName, provider⟩ : StreamMetadata) (some requestId) ::
      numberFrom requestId 0 (chunks.filterMap deltaToken)), f.isTerminal = false := by
    intro f hf
    rcases List.mem_cons.mp hf with h | h
    · subst h; rfl
    · exact (numberFrom_not_terminal requestId _ _ f h).1
  have hrun := handleStreamingResponse_error_run s requestId now _ hnt msg
    (some (requestId ++ "-error"))
  have hcut : contentsUntilTerminal (SSEMessage.metadata
      (⟨some requestId, modelName, provider⟩ : StreamMetadata) (some requestId) ::
      numberFrom requestId 0 (chunks.filterMap deltaToken)) = chunks.filterMap deltaToken := by
    show contentsUntilTerminal (numberFrom requestId 0 (chunks.filterMap deltaToken)) = _
    simpa [contentsUntilTerminal] using
      contentsUntilTerminal_numberFrom_append requestId (chunks.filterMap deltaToken) 0 []
  rw [streamResponseFrames_fail]
  refine ⟨?_, hrun.2.1, hrun.2.2.1, hrun.2.2.2.2⟩
  rw [hrun.1, hcut]
  rw [List.getElem?_set_self']
  simp

/-! ### Claim C2 — retry excludes the failed turn -/

/-- C2 (counterexample): after an attempt failed with a non-2xx response, the
last message is the assistant error stand-in, so `retry` — though below the
maximum and with the payload cached — resubmits nothing at all: no request is
dispatched and the message list is unchanged, refuting the claim that it
"resubmits the last user message ... excluding any assistant error stand-in
message". -/
theorem retry_after_failure_counterexample :
    failedOnceState.retryCount < jsMaxRetries none ∧
    failedOnceState.messages.getLast? =
      some ⟨.assistant, "server down", 0, some ⟨true⟩⟩ ∧
    (retry failedOnceState none (.thrown "x") "r2" 0).2 = none ∧
    (retry failedOnceState none (.thrown "x") "r2" 0).1.messages = failedOnceState.messages := by
  decide

/-- C2 (amended): below the maximum, `retry` resubmits only when the
session's last message is a user message — then with the cached payload, over
the history excluding that last message, so the retried user message is not
duplicated; when the last message is an assistant one (in particular the
error stand-in of a failed attempt) it only bumps the counter and clears the
error, dispatching nothing. -/
theorem retry_resubmission_behavior (s : ClientState) (maxRetries : Option Nat)
    (outcome : FetchOutcome) (requestId : String) (now : Nat) (m : ChatMessage)
    (hlt : s.retryCount < jsMaxRetries maxRetries)
    (hlast : s.messages.getLast? = some m) :
    (m.role = .assistant →
      retry s maxRetries outcome requestId now =
        ({ s with retryCount := s.retryCount + 1, error := none }, none)) ∧
    (m.role = .user → jsTrim m.content ≠ "" → s.isLoading = false →
      (retry s maxRetries outcome requestId now).2 =
        some ⟨s.messages.dropLast ++ [⟨.user, jsTrim m.content, now, none⟩], s.lastPayload⟩) :=
  ⟨fun hrole => retry_assistant_noop s maxRetries outcome requestId now m hlt hlast hrole,
   fun hrole htrim hload =>
     retry_resubmits s maxRetries outcome requestId now m hlt hlast hrole htrim hload⟩

/-- C2 (witness): both arms at concrete sessions — the failed session's
assistant stand-in suppresses the dispatch; a session ending in a user
message dispatches it over the shortened history with the cached payload. -/
theorem retry_resubmission_behavior_witness :
    (failedOnceState.retryCount < jsMaxRetries none ∧
      retry failedOnceState none (.thrown "x") "r2" 0 =
        ({ failedOnceState with retryCount := 1, error := none }, none)) ∧
    (userOnlyState.retryCount < jsMaxRetries none ∧
      (retry userOnlyState none (.thrown "x") "r2" 7).2 =
        some ⟨[⟨.user, "hi", 7, none⟩], none⟩) :=
  ⟨⟨by decide,
    (retry_resubmission_behavior failedOnceState none (.thrown "x") "r2" 0
        ⟨.assistant, "server down", 0, some ⟨true⟩⟩ (by decide) (by decide)).1 rfl⟩,
   ⟨by decide,
    (retry_resubmission_behavior userOnlyState none (.thrown "x") "r2" 7
        ⟨.user, "hi", 0, none⟩ (by decide) (by decide)).2 rfl (by decide) rfl⟩⟩

/-! ### Claim C3 — frame order on an opened stream -/

/-- C3: every stream the handler returns starts with exactly one `metadata`
frame, ends with exactly one terminal frame (`done` or `error`), has only
`content` frames in between, and emits nothing after the terminal frame. -/
theorem stream_frame_order (env : ServerEnv) (req : ServerRequest) (requestId : String)
    (up : UpstreamBehavior) (frames : List SSEMessage)
    (h : (POST env req requestId up).1 = .stream frames) :
    (∃ md mid, frames.head? = some (SSEMessage.metadata md mid)) ∧
    (∃ t, frames.getLast? = some t ∧ t.isTerminal = true) ∧
    frames.countP SSEMessage.isTerminal = 1 ∧
    (∀ f ∈ (frames.drop 1).dropLast, f.isContent = true) := by
  unfold POST at h
  split at h
  · simp at h
  · split at h
    · simp at h
    · split at h
      · simp at h
      · split at h
        · simp at h
        · split at h
          · simp at h
          · split at h
            · simp at h
            · simp only [Prod.fst] at h
              rw [PostResult.stream.injEq] at h
              rw [← h]
              exact streamResponseFrames_shape _ _ _ _ _

/-- C3 (witness): a concrete accepted request with one upstream fragment
yields a stream, for which the four shape facts hold. -/
theorem stream_frame_order_witness :
    (POST envDev reqHello "r" (.opened "m" [mkChunk "Hi"] .ok)).1 =
      .stream (streamResponseFrames "r" "m" "openai" [mkChunk "Hi"] .ok).1 ∧
    ((∃ md mid, ((streamResponseFrames "r" "m" "openai" [mkChunk "Hi"] .ok).1).head? =
        some (SSEMessage.metadata md mid)) ∧
      (∃ t, ((streamResponseFrames "r" "m" "openai" [mkChunk "Hi"] .ok).1).getLast? = some t ∧
        t.isTerminal = true) ∧
      ((streamResponseFrames "r" "m" "openai" [mkChunk "Hi"] .ok).1).countP
        SSEMessage.isTerminal = 1 ∧
      (∀ f ∈ ((((streamResponseFrames "r" "m" "openai" [mkChunk "Hi"] .ok).1).drop 1).dropLast),
        f.isContent = true)) :=
  ⟨by decide,
   stream_frame_order envDev reqHello "r" (.opened "m" [mkChunk "Hi"] .ok) _ (by decide)⟩

/-! ### Claim C4 — exact reconstruction of content -/

/-- C4: for any record sequence the decoder consumes, the assistant message
it reconstructs is exactly the in-order concatenation of the content
fragments preceding the terminal record — nothing reordered, coalesced,
duplicated or dropped; and for every emitted stream those fragments are
exactly the upstream string tokens. -/
theorem decoder_reconstructs_exact_concatenation :
    (∀ (s : ClientState) (requestId : String) (now : Nat) (frames : List SSEMessage),
      (handleStreamingResponse s requestId now frames).messages[s.messages.length]? =
        some ⟨.assistant, concatAll (contentsUntilTerminal frames), now, none⟩) ∧
    (∀ (requestId modelName provider : String) (chunks : List ChatCompletionChunk)
        (upstreamEnd : StreamEnd),
      contentsUntilTerminal
          (streamResponseFrames requestId modelName provider chunks upstreamEnd).1 =
        chunks.filterMap deltaToken) := by
  constructor
  · intro s requestId now frames
    rw [handleStreamingResponse_messages]
    rw [List.getElem?_set_self']
    simp
  · exact contentsUntilTerminal_streamResponseFrames

/-! ### Claim C5 — origin gate -/

/-- C5: a non-empty origin outside the allow-list is rejected with HTTP 403
before any upstream work (the upstream-called flag is `false`); an empty or
absent origin is never rejected by the origin check. -/
theorem origin_gate (env : ServerEnv) (req : ServerRequest) (requestId : String)
    (up : UpstreamBehavior) :
    (strTruthy req.origin = true → req.origin.getD "" ∉ allowedOrigins env →
      POST env req requestId up = (.json 403 "Origin not allowed.", false)) ∧
    (strTruthy req.origin = false →
      (POST env req requestId up).1 ≠ PostResult.json 403 "Origin not allowed.") := by
  constructor
  · intro h1 h2
    unfold POST
    rw [if_pos ⟨h1, h2⟩]
  · intro h0
    unfold POST
    rw [if_neg (by simp [h0])]
    split
    · simp
    · split
      · simp
      · split
        · simp
        · split
          · simp
          · split <;> simp

/-- C5 (witness): a disallowed origin gets the 403 with no upstream call; an
absent origin is not origin-rejected. -/
theorem origin_gate_witness :
    (strTruthy reqBadOrigin.origin = true ∧
      reqBadOrigin.origin.getD "" ∉ allowedOrigins envDev) ∧
    POST envDev reqBadOrigin "r" (.openFail "nope") = (.json 403 "Origin not allowed.", false) ∧
    (strTruthy reqHello.origin = false ∧
      (POST envDev reqHello "r" (.openFail "nope")).1 ≠
        PostResult.json 403 "Origin not allowed.") :=
  ⟨⟨by decide, by decide⟩,
   (origin_gate envDev reqBadOrigin "r" (.openFail "nope")).1 (by decide) (by decide),
   ⟨by decide, (origin_gate envDev reqHello "r" (.openFail "nope")).2 (by decide)⟩⟩

/-! ### Claim C6 — input validation -/

/-- C6 (counterexample): an admitted request with an empty `messages` array
but an unrecognized `provider` string is answered with HTTP 500 — provider
resolution runs before input validation and its failure is caught by the
outer handler — not with the claimed HTTP 400 (still with no upstream
call). -/
theorem empty_messages_unknown_provider_counterexample :
    reqEmptyBogusProvider.body = .parsed ⟨some [], some "bogus"⟩ ∧
    POST envDev reqEmptyBogusProvider "r" (.openFail "nope") =
      (.json 500 "Unknown provider: bogus", false) ∧
    (POST envDev reqEmptyBogusProvider "r" (.openFail "nope")).1 ≠
      PostResult.json 400 "Invalid request: missing messages or content" := by
  decide

/-- C6 (amended): for every admitted request whose body parses and whose
provider field resolves, an empty `messages` array or a final message with
empty content is answered with HTTP 400 and the upstream provider is never
called; when the provider field is an unrecognized string, resolution fails
first and the response is HTTP 500 instead — also without an upstream
call. -/
theorem validation_rejects_before_upstream (env : ServerEnv) (req : ServerRequest)
    (requestId : String) (up : UpstreamBehavior) (body : RequestBody) (p : ProviderName)
    (horig : ¬ (strTruthy req.origin = true ∧ req.origin.getD "" ∉ allowedOrigins env))
    (huser : strTruthy (resolvedUserId env req) = true)
    (htenant : strTruthy (resolvedTenantId env req) = true)
    (hbody : req.body = .parsed body)
    (hprov : resolveProvider body.provider env.providerEnv env.defaultProvider = .ok p)
    (hval : body.messages.getD [] = [] ∨
      (((body.messages.getD []).getLast?).map VercelChatMessage.content).getD "" = "") :
    POST env req requestId up =
      (.json 400 "Invalid request: missing messages or content", false) := by
  unfold POST
  rw [if_neg (by simpa using horig)]
  rw [if_neg (by simp [huser, htenant])]
  rw [hbody]
  simp only [hprov]
  rw [if_pos hval]

/-- C6 (witness): an admitted dev-posture request with empty `messages` and
no provider field gets the 400 and no upstream call. -/
theorem validation_rejects_before_upstream_witness :
    POST envDev ⟨none, none, none, .parsed ⟨some [], none⟩⟩ "r" (.openFail "nope") =
      (.json 400 "Invalid request: missing messages or content", false) :=
  validation_rejects_before_upstream envDev ⟨none, none, none, .parsed ⟨some [], none⟩⟩
    "r" (.openFail "nope") ⟨some [], none⟩ .openai
    (by decide) (by decide) (by decide) rfl (by decide) (Or.inl rfl)

/-! ### Claim C7 — retry exhaustion -/

/-- C7 (counterexample): with a configured maximum of `0` the counter (0) has
reached the configured maximum, yet `retry` dispatches a request and sets no
exhaustion error — `maxRetries || 3` treats the configured `0` as `3`. -/
theorem retry_configured_zero_counterexample :
    userOnlyState.retryCount ≥ 0 ∧
    (retry userOnlyState (some 0) (.thrown "x") "r" 0).2.isSome = true ∧
    (retry userOnlyState (some 0) (.thrown "x") "r" 0).1.error ≠
      some "Maximum retry attempts reached" := by
  decide

/-- C7 (amended): once the retry counter has reached the effective maximum
`maxRetries || 3` (so a configured 0 falls back to the default 3), every
further `retry()` sets the explicit exhaustion error and dispatches nothing;
in particular with maximum 3 the fourth attempt is rejected. -/
theorem retry_exhaustion (s : ClientState) (maxRetries : Option Nat) (outcome : FetchOutcome)
    (requestId : String) (now : Nat) (h : s.retryCount ≥ jsMaxRetries maxRetries) :
    retry s maxRetries outcome requestId now =
      ({ s with error := some "Maximum retry attempts reached" }, none) := by
  unfold retry
  rw [if_pos h]

/-- C7 (witness): the fourth attempt — counter already at the default
maximum 3 — is rejected with the exhaustion error and dispatches nothing. -/
theorem retry_exhaustion_witness :
    exhaustedState.retryCount ≥ jsMaxRetries none ∧
    retry exhaustedState none (.thrown "x") "r" 0 =
      ({ exhaustedState with error := some "Maximum retry attempts reached" }, none) :=
  ⟨by decide, retry_exhaustion exhaustedState none (.thrown "x") "r" 0 (by decide)⟩

/-! ### Claim C8 — rejected sendMessage is a conversation no-op -/

/-- C8: a `sendMessage` call with blank text or while a request is in flight
leaves the message list unchanged and dispatches no request. -/
theorem sendMessage_rejected_noop (s : ClientState) (content : String)
    (payload : Option Payload) (outcome : FetchOutcome) (requestId : String) (now : Nat)
    (h : jsTrim content = "" ∨ s.isLoading = true) :
    (sendMessage s content payload outcome requestId now).1.messages = s.messages ∧
    (sendMessage s content payload outcome requestId now).2 = none := by
  unfold sendMessage sendMessageCore
  rw [if_pos (by simpa using h)]
  exact ⟨rfl, rfl⟩

/-- C8 (witness): a blank-text call and an in-flight call, both no-ops. -/
theorem sendMessage_rejected_noop_witness :
    (jsTrim "   " = "" ∨ initialClientState.isLoading = true) ∧
    (sendMessage initialClientState "   " (some [("k", "v")]) (.thrown "x") "r" 0).1.messages =
      initialClientState.messages ∧
    (sendMessage initialClientState "   " (some [("k", "v")]) (.thrown "x") "r" 0).2 = none :=
  ⟨Or.inl (by decide),
   (sendMessage_rejected_noop initialClientState "   " (some [("k", "v")]) (.thrown "x") "r" 0
      (Or.inl (by decide))).1,
   (sendMessage_rejected_noop initialClientState "   " (some [("k", "v")]) (.thrown "x") "r" 0
      (Or.inl (by decide))).2⟩

/-! ### Claim C9 — rejected sendMessage still overwrites the cached payload -/

/-- C9: a rejected `sendMessage` call nevertheless overwrites the cached
side-channel payload (the wrapper writes `lastPayloadRef` before the core's
guard), so a subsequent dispatching `retry` resubmits with the rejected
call's payload. -/
theorem rejected_sendMessage_overwrites_payload (s : ClientState) (content : String)
    (payload : Option Payload) (o1 : FetchOutcome) (rid1 : String) (now1 : Nat)
    (maxRetries : Option Nat) (o2 : FetchOutcome) (rid2 : String) (now2 : Nat)
    (m : ChatMessage) (hrej : jsTrim content = "" ∨ s.isLoading = true) :
    (sendMessage s content payload o1 rid1 now1).1.lastPayload = payload ∧
    ((sendMessage s content payload o1 rid1 now1).1.retryCount < jsMaxRetries maxRetries →
      (sendMessage s content payload o1 rid1 now1).1.messages.getLast? = some m →
      m.role = .user → jsTrim m.content ≠ "" →
      (sendMessage s content payload o1 rid1 now1).1.isLoading = false →
      (retry (sendMessage s content payload o1 rid1 now1).1 maxRetries o2 rid2 now2).2 =
        some ⟨(sendMessage s content payload o1 rid1 now1).1.messages.dropLast ++
          [⟨.user, jsTrim m.content, now2, none⟩], payload⟩) := by
  have hs1 : (sendMessage s content payload o1 rid1 now1).1 =
      { s with lastPayload := payload } := by
    unfold sendMessage sendMessageCore
    rw [if_pos (by simpa using hrej)]
  constructor
  · rw [hs1]
  · intro hlt hlast hrole htrim hload
    rw [retry_resubmits _ maxRetries o2 rid2 now2 m hlt hlast hrole htrim hload]
    rw [hs1]

/-- C9 (witness): a blank `sendMessage` with a fresh payload, then a
dispatching `retry`: the dispatched request carries the rejected call's
payload. -/
theorem rejected_sendMessage_overwrites_payload_witness :
    (jsTrim "" = "" ∨ userOnlyState.isLoading = true) ∧
    (sendMessage userOnlyState "" (some [("k", "v")]) (.thrown "x") "r1" 0).1.lastPayload =
      some [("k", "v")] ∧
    (retry (sendMessage userOnlyState "" (some [("k", "v")]) (.thrown "x") "r1" 0).1 none
        (.thrown "y") "r2" 5).2 =
      some ⟨(sendMessage userOnlyState "" (some [("k", "v")]) (.thrown "x") "r1" 0).1.messages.dropLast
        ++ [⟨.user, "hi", 5, none⟩], some [("k", "v")]⟩ :=
  ⟨Or.inl rfl,
   (rejected_sendMessage_overwrites_payload userOnlyState "" (some [("k", "v")]) (.thrown "x")
      "r1" 0 none (.thrown "y") "r2" 5 ⟨.user, "hi", 0, none⟩ (Or.inl rfl)).1,
   (rejected_sendMessage_overwrites_payload userOnlyState "" (some [("k", "v")]) (.thrown "x")
      "r1" 0 none (.thrown "y") "r2" 5 ⟨.user, "hi", 0, none⟩ (Or.inl rfl)).2
     (by decide) (by decide) rfl (by decide) (by decide)⟩

/-! ### Claim C10 — content frame iff string token -/

/-- C10: the relay loop emits a content frame for a chunk exactly when the
chunk's first choice carries a string delta content (`deltaToken`); skipped
chunks contribute neither a frame nor an increment of the counter that feeds
telemetry and the consecutive frame ids. -/
theorem relay_content_iff_string_token (requestId : String)
    (chunks : List ChatCompletionChunk) (c : Nat) :
    relayContentFrames requestId c chunks =
      (numberFrom requestId c (chunks.filterMap deltaToken),
       c + (chunks.filterMap deltaToken).length) ∧
    (relayContentFrames requestId 0 chunks).1.filterMap SSEMessage.contentData =
      chunks.filterMap deltaToken := by
  refine ⟨relayContentFrames_eq requestId chunks c, ?_⟩
  rw [relayContentFrames_eq requestId chunks 0]
  simpa using numberFrom_contentData requestId (chunks.filterMap deltaToken) 0

end DeepAgent
